import Mathlib

/-!
Verification of the notification-service core: a shallow embedding of the
domain model (internal/domain/model), the orchestration service
(internal/application/notification/service.go) and the two storage backends
(internal/infrastructure/repositories/postgres and .../redis, plus the redis
notification repository in internal/infrastructure/db), together with
theorems settling the specification claims.

Conventions of the embedding:
- Go strings are Lean `String`; Go `time.Time` values are written as integer
  nanoseconds since the epoch (`Int`); `time.Time.Unix()` is division by 1e9.
- `uuid.UUID` values are lists of byte values (`List Nat`), `uuid.Nil` being
  sixteen zeros; `uuid.UUID.String()` and `uuid.Parse` are embedded below.
- Go maps `map[string]string` are association lists; a `nil` map is `[]`.
- Fallible operations return `Except String` or `Option String` (the error),
  mirroring Go's `error` results; collaborator outcomes (provider sends,
  repository calls, clock, fresh ids) are passed in as explicit environment
  records, since the Go code receives them through injected interfaces.
-/

namespace NotificationService

deriving instance DecidableEq for Except

/-- Byte-list model of `uuid.UUID` (a `[16]byte` in Go). -/
abbrev UUID := List Nat

/-- `uuid.Nil`, the zero UUID. -/
def uuidNil : UUID := List.replicate 16 0

/-- Association-list lookup, the model of reading a Go map or a redis key. -/
def lookupKV {α : Type} (l : List (String × α)) (k : String) : Option α :=
  match l.find? (fun p => p.1 == k) with
  | some p => some p.2
  | none => none

/-- Insert-or-replace for an association list (redis SET / map assignment). -/
def upsertKV {α : Type} (l : List (String × α)) (k : String) (v : α) :
    List (String × α) :=
  match l with
  | [] => [(k, v)]
  | p :: rest => if p.1 == k then (k, v) :: rest else p :: upsertKV rest k v

/-- Remove a key from an association list (redis DEL). -/
def eraseKV {α : Type} (l : List (String × α)) (k : String) :
    List (String × α) :=
  l.filter (fun p => ¬ p.1 == k)

/-- The `Notification` entity of internal/domain/model/notification.go.
Field `ntype` embeds the Go field `Type` (a reserved word in Lean). -/
structure Notification where
  id : UUID
  recipient : String
  ntype : String
  subject : String
  content : String
  status : String
  priority : String
  templateID : UUID
  templateType : String
  templateData : List (String × String)
  metadata : List (String × String)
  errorMessage : String
  retryCount : Nat
  createdAt : Int
  updatedAt : Int
deriving Repr, DecidableEq

/-- Status constant `model.StatusPending`. -/
def statusPending : String := "pending"

/-- Status constant `model.StatusSent`. -/
def statusSent : String := "sent"

/-- Status constant `model.StatusFailed`. -/
def statusFailed : String := "failed"

/-- `model.NewNotification`: fresh id and timestamps are environment inputs.
Go zero values give empty subject, content, error message and a nil metadata
map; status starts pending, priority medium, retry count zero. -/
def newNotification (recipient ntype templateType : String)
    (templateID : UUID) (templateData : List (String × String))
    (id : UUID) (now : Int) : Notification :=
  { id := id
    recipient := recipient
    ntype := ntype
    subject := ""
    content := ""
    status := statusPending
    priority := "medium"
    templateID := templateID
    templateType := templateType
    templateData := templateData
    metadata := []
    errorMessage := ""
    retryCount := 0
    createdAt := now
    updatedAt := now }

/-- `Notification.Validate`: returns the error message of the
`ErrInvalidNotification` produced, or `none` on success. -/
def Notification.validate (n : Notification) : Option String :=
  if n.recipient = "" then some "recipient is required"
  else if n.ntype = "" then some "notification type is required"
  else if n.templateID = uuidNil then some "template ID is required"
  else if n.templateType = "" then some "template type is required"
  else none

/-- `Notification.UpdateStatus`: sets status and error message and refreshes
`updatedAt` to the current time. -/
def Notification.updateStatus (n : Notification) (status errorMessage : String)
    (now : Int) : Notification :=
  { n with status := status, errorMessage := errorMessage, updatedAt := now }

/-- `Notification.IncrementRetryCount`: bumps the counter and refreshes
`updatedAt`. -/
def Notification.incrementRetryCount (n : Notification) (now : Int) :
    Notification :=
  { n with retryCount := n.retryCount + 1, updatedAt := now }

/-! ### The orchestration service (`Service.SendNotification`)

Collaborator outcomes for one call are collected in `SendEnv`: the result of
`repo.Save`, of each provider's send, and of the final `repo.Update`
(`none` meaning success, `some e` the error `e`), plus the clock value used
by `UpdateStatus`. -/

/-- Environment of one `SendNotification` call. -/
structure SendEnv where
  saveResult : Option String
  emailResult : Option String
  smsResult : Option String
  pushResult : Option String
  updateResult : Option String
  now : Int
deriving Repr

/-- The provider switch of `SendNotification`: the outcome of the send for
the selected provider, or the unsupported-type error. -/
def dispatch (env : SendEnv) (n : Notification) : Option String :=
  if n.ntype = "email" then env.emailResult
  else if n.ntype = "sms" then env.smsResult
  else if n.ntype = "push" then env.pushResult
  else some ("unsupported notification type: " ++ n.ntype)

/-- Whether `Notification.ntype` selects one of the three providers. -/
def supportedType (t : String) : Bool :=
  t = "email" || t = "sms" || t = "push"

/-- Observable outcome of one `SendNotification` call: the error returned to
the caller, whether `repo.Save` was invoked, whether a provider send was
invoked, and the record present in the store afterwards (`none` when the
initial save failed, so no record exists). -/
structure SendOutcome where
  result : Option String
  saveCalled : Bool
  providerCalled : Bool
  stored : Option Notification
deriving Repr, DecidableEq

/-- `Service.SendNotification` (service.go lines 284-315): save first, then
dispatch by type; on provider error mark failed and best-effort update,
returning the send error; on success mark sent and best-effort update,
returning nil. A failed final update leaves the saved record unchanged and
is only logged. -/
def sendNotification (env : SendEnv) (n : Notification) : SendOutcome :=
  match env.saveResult with
  | some e =>
    { result := some ("error saving notification: " ++ e)
      saveCalled := true
      providerCalled := false
      stored := none }
  | none =>
    match dispatch env n with
    | some e =>
      let n2 := n.updateStatus statusFailed e env.now
      { result := some ("error sending notification: " ++ e)
        saveCalled := true
        providerCalled := supportedType n.ntype
        stored := some (if env.updateResult = none then n2 else n) }
    | none =>
      let n2 := n.updateStatus statusSent "" env.now
      { result := none
        saveCalled := true
        providerCalled := supportedType n.ntype
        stored := some (if env.updateResult = none then n2 else n) }

/-! ### The event handler `Service.handleUserRegistered`

The decoded shape of a valid `user.registered` payload, and the environment
of one `handleEvent` call: the template-engine result for "welcome.html",
the repository outcomes, and the fresh id / clock used by
`model.NewNotification`. -/

/-- Decoded `user.registered` event payload (service.go lines 63-69). -/
structure UserRegisteredEvent where
  userId : String
  email : String
  username : String
  firstName : String
  lastName : String
deriving Repr

/-- Environment of one `handleUserRegistered` call. -/
structure HandlerEnv where
  renderResult : Except String String
  saveResult : Option String
  emailResult : Option String
  updateResult : Option String
  newId : UUID
  now : Int

/-- Observable outcome of one `handleUserRegistered` call: the error returned
to the caller, how many times `repo.Save` was invoked, and the record present
in the store afterwards. -/
structure HandlerOutcome where
  result : Option String
  saveCount : Nat
  stored : Option Notification
deriving Repr, DecidableEq

/-- `Service.handleUserRegistered` (service.go lines 62-119): render the
welcome template, construct a notification via `model.NewNotification` —
note the Go call passes the subject/content/eventType/userId map as the
`templateData` argument and `uuid.Nil` as the template id, and
`NewNotification` never sets `Subject`, `Content` or `Metadata` — then save,
send email with the notification's (zero-valued) subject and content, and
update the status, best-effort. -/
def handleUserRegistered (env : HandlerEnv) (event : UserRegisteredEvent) :
    HandlerOutcome :=
  match env.renderResult with
  | Except.error e =>
    { result := some ("error processing welcome template: " ++ e)
      saveCount := 0
      stored := none }
  | Except.ok content =>
    let n := newNotification event.email "email" "email" uuidNil
      [("subject", "Welcome to Our Service"),
       ("content", content),
       ("eventType", "user.registered"),
       ("userId", event.userId)]
      env.newId env.now
    match env.saveResult with
    | some e =>
      { result := some ("error saving notification: " ++ e)
        saveCount := 1
        stored := none }
    | none =>
      match env.emailResult with
      | some e =>
        let n2 := n.updateStatus statusFailed e env.now
        { result := some ("error sending welcome email: " ++ e)
          saveCount := 1
          stored := some (if env.updateResult = none then n2 else n) }
      | none =>
        let n2 := n.updateStatus statusSent "" env.now
        { result := none
          saveCount := 1
          stored := some (if env.updateResult = none then n2 else n) }

/-! ### UUID strings: `uuid.UUID.String()` and `uuid.Parse` -/

/-- Lower-case hex digit for a value below sixteen. -/
def hexChar (n : Nat) : Char :=
  if n < 10 then Char.ofNat (48 + n) else Char.ofNat (87 + n)

/-- Two lower-case hex digits of one byte. -/
def byteHex (b : Nat) : List Char :=
  [hexChar (b / 16 % 16), hexChar (b % 16)]

/-- `uuid.UUID.String()`: canonical 8-4-4-4-12 lower-case form. -/
def uuidToString (u : UUID) : String :=
  let bytes := u.map byteHex
  let seg (a b : Nat) : List Char := ((bytes.drop a).take (b - a)).flatten
  String.mk (seg 0 4 ++ '-' :: seg 4 6 ++ '-' :: seg 6 8 ++ '-' :: seg 8 10
    ++ '-' :: seg 10 16)

/-- Value of one hex digit character, as in the `xvalues` table of
google/uuid. -/
def hexVal (c : Char) : Option Nat :=
  if 48 ≤ c.toNat ∧ c.toNat ≤ 57 then some (c.toNat - 48)
  else if 97 ≤ c.toNat ∧ c.toNat ≤ 102 then some (c.toNat - 87)
  else if 65 ≤ c.toNat ∧ c.toNat ≤ 70 then some (c.toNat - 55)
  else none

/-- `xtob` of google/uuid: one byte from two hex digits. -/
def xtob (c1 c2 : Char) : Option Nat :=
  match hexVal c1, hexVal c2 with
  | some h, some l => some (h * 16 + l)
  | _, _ => none

/-- Consecutive hex digit pairs to bytes; fails on an odd count or a
non-hex character. -/
def parseHexPairs : List Char → Option (List Nat)
  | [] => some []
  | c1 :: c2 :: rest =>
    match xtob c1 c2, parseHexPairs rest with
    | some b, some bs => some (b :: bs)
    | _, _ => none
  | _ => none

/-- The canonical `xxxxxxxx-xxxx-xxxx-xxxx-xxxxxxxxxxxx` form: hyphens at
offsets 8, 13, 18 and 23, hex digit pairs at the sixteen byte offsets
`{0, 2, 4, 6, 9, 11, 14, 16, 19, 21, 24, 26, 28, 30, 32, 34}` — parsed here
as the concatenation of the five hyphen-separated groups. -/
def parseCanonical (cs : List Char) : Option (List Nat) :=
  if cs.length = 36 ∧ cs[8]? = some '-' ∧ cs[13]? = some '-' ∧
      cs[18]? = some '-' ∧ cs[23]? = some '-' then
    parseHexPairs (cs.take 8 ++ (cs.drop 9).take 4 ++ (cs.drop 14).take 4
      ++ (cs.drop 19).take 4 ++ cs.drop 24)
  else none

/-- ASCII lower-casing, for the case-insensitive `urn:uuid:` check. -/
def toLowerAscii (c : Char) : Char :=
  if 65 ≤ c.toNat ∧ c.toNat ≤ 90 then Char.ofNat (c.toNat + 32) else c

/-- `uuid.Parse` of google/uuid: accepts the canonical 36-character form,
`urn:uuid:` plus canonical (45 characters, case-insensitive prefix), a
38-character form in which the first character is skipped (the braced form;
the library does not verify the braces), and 32 bare hex digits. -/
def uuidParse (s : String) : Option (List Nat) :=
  let cs := s.toList
  if cs.length = 36 then parseCanonical cs
  else if cs.length = 45 then
    if (cs.take 9).map toLowerAscii = "urn:uuid:".toList then
      parseCanonical (cs.drop 9)
    else none
  else if cs.length = 38 then parseCanonical ((cs.drop 1).take 36)
  else if cs.length = 32 then parseHexPairs cs
  else none

/-! ### The `Template` entity and the two template stores -/

/-- The `Template` entity of internal/domain/model/template.go. Field
`ttype` embeds the Go field `Type` and `vars` the Go field `Variables`
(both names are taken in Lean). -/
structure Template where
  id : UUID
  name : String
  ttype : String
  subject : String
  content : String
  vars : List String
  metadata : List (String × String)
  version : Nat
  isActive : Bool
  createdAt : Int
  updatedAt : Int
deriving Repr, DecidableEq

/-- The relational template store: the rows of the `templates` table. -/
abbrev PgTemplateStore := List Template

/-- `TemplateRepository.Update` on PostgreSQL (the durable backend): the SQL
UPDATE writes name, type, subject, content, variables, metadata, the
caller-supplied version and is_active, and sets `updated_at` to the database
clock; `created_at` is not in the SET list. Zero affected rows is the
not-found error. -/
def pgTemplateUpdate (st : PgTemplateStore) (t : Template) (now : Int) :
    Except String PgTemplateStore :=
  if st.any (fun old => old.id == t.id) then
    Except.ok (st.map (fun old =>
      if old.id == t.id then
        { t with createdAt := old.createdAt, updatedAt := now }
      else old))
  else Except.error ("template not found: " ++ uuidToString t.id)

/-- `TemplateRepository.Delete` on PostgreSQL: zero affected rows is the
not-found error. -/
def pgTemplateDelete (st : PgTemplateStore) (id : UUID) :
    Except String PgTemplateStore :=
  if st.any (fun old => old.id == id) then
    Except.ok (st.filter (fun old => ¬ old.id == id))
  else Except.error ("template not found: " ++ uuidToString id)

/-- The cache-oriented (redis) template store: template records keyed by
`template:<id>` and the `template:type:<type>` membership index. -/
structure RedisTemplateStore where
  data : List (String × Template)
  typeIndex : List (String × List String)
deriving Repr, DecidableEq

/-- SADD of one member to the set held under a key. -/
def saddKV (l : List (String × List String)) (k m : String) :
    List (String × List String) :=
  match lookupKV l k with
  | some ms => upsertKV l k (if m ∈ ms then ms else ms ++ [m])
  | none => l ++ [(k, [m])]

/-- SREM of one member from the set held under a key. -/
def sremKV (l : List (String × List String)) (k m : String) :
    List (String × List String) :=
  match lookupKV l k with
  | some ms => upsertKV l k (ms.filter (fun x => ¬ x == m))
  | none => l

/-- Redis `TemplateRepository.Save`: SET the record and SADD its id to the
type index. -/
def redisTemplateSave (st : RedisTemplateStore) (t : Template) :
    RedisTemplateStore :=
  { data := upsertKV st.data (uuidToString t.id) t
    typeIndex := saddKV st.typeIndex t.ttype (uuidToString t.id) }

/-- Redis `TemplateRepository.Update`: increments `version`, refreshes
`updatedAt` to the clock, then saves; there is no existence check. Returns
the store and the template as written. -/
def redisTemplateUpdate (st : RedisTemplateStore) (t : Template) (now : Int) :
    RedisTemplateStore × Template :=
  let t2 := { t with version := t.version + 1, updatedAt := now }
  (redisTemplateSave st t2, t2)

/-- Redis `TemplateRepository.Delete`: a missing id returns success without
touching the store; otherwise DEL the record and SREM the type index. -/
def redisTemplateDelete (st : RedisTemplateStore) (id : UUID) :
    Except String RedisTemplateStore :=
  match lookupKV st.data (uuidToString id) with
  | none => Except.ok st
  | some t =>
    Except.ok
      { data := eraseKV st.data (uuidToString id)
        typeIndex := sremKV st.typeIndex t.ttype (uuidToString id) }

/-! ### The two notification stores -/

/-- The relational notification store: the rows of the `notifications`
table. -/
abbrev PgNotificationStore := List Notification

/-- `NotificationRepository.FindByID` on PostgreSQL: the id string is parsed
as a UUID first — a malformed id is an error, not a miss; `sql.ErrNoRows`
becomes `(nil, nil)`. -/
def pgNotificationFindByID (st : PgNotificationStore) (id : String) :
    Except String (Option Notification) :=
  match uuidParse id with
  | none => Except.error ("invalid notification ID format: " ++ id)
  | some u => Except.ok (st.find? (fun n => n.id == u))

/-- `NotificationRepository.Delete` on PostgreSQL: zero affected rows is the
not-found error. -/
def pgNotificationDelete (st : PgNotificationStore) (id : UUID) :
    Except String PgNotificationStore :=
  if st.any (fun n => n.id == id) then
    Except.ok (st.filter (fun n => ¬ n.id == id))
  else Except.error ("notification not found: " ++ uuidToString id)

/-- Insertion into a list kept in `le`-order (helper for the sort below). -/
def insertBy {α : Type} (le : α → α → Bool) (a : α) : List α → List α
  | [] => [a]
  | b :: l => if le a b then a :: b :: l else b :: insertBy le a l

/-- Insertion sort by a boolean relation; used to model `ORDER BY` and the
redis sorted-set order. -/
def sortBy {α : Type} (le : α → α → Bool) : List α → List α
  | [] => []
  | a :: l => insertBy le a (sortBy le l)

/-- `createdAt` descending, the `ORDER BY created_at DESC` order. -/
def createdDescB (a b : Notification) : Bool := b.createdAt ≤ a.createdAt

/-- `NotificationRepository.FindByRecipient` on PostgreSQL:
`WHERE recipient = $1 ORDER BY created_at DESC LIMIT $2 OFFSET $3`. -/
def pgNotificationFindByRecipient (st : PgNotificationStore)
    (recipient : String) (limit offst : Nat) : List Notification :=
  (((sortBy createdDescB (st.filter (fun n => n.recipient == recipient)))
    ).drop offst).take limit

/-- `Notification.CreatedAt.Unix()`: whole seconds of a nanosecond
timestamp. -/
def unixSeconds (t : Int) : Int := t / 1000000000

/-- The cache-oriented (redis) notification store: records keyed by
`notification:<id>`, and per recipient the `recipient:<r>` sorted set of
(id, creation-second score) entries. The 30-day expiry is a real-time
behavior outside this embedding. -/
structure RedisState where
  data : List (String × Notification)
  index : List (String × List (String × Int))
deriving Repr, DecidableEq

/-- ZADD of one member with a score: updates the score of an existing
member, appends a new one. -/
def zaddKV (l : List (String × List (String × Int))) (k m : String)
    (score : Int) : List (String × List (String × Int)) :=
  match lookupKV l k with
  | some es =>
    upsertKV l k
      (if (es.find? (fun e => e.1 == m)).isSome then
        es.map (fun e => if e.1 == m then (m, score) else e)
      else es ++ [(m, score)])
  | none => l ++ [(k, [(m, score)])]

/-- ZREM of one member. -/
def zremKV (l : List (String × List (String × Int))) (k m : String) :
    List (String × List (String × Int)) :=
  match lookupKV l k with
  | some es => upsertKV l k (es.filter (fun e => ¬ e.1 == m))
  | none => l

/-- Redis `NotificationRepository.Save`: SET the record under its id and
ZADD the id to the recipient's sorted set with score
`CreatedAt.Unix()`. -/
def redisNotificationSave (st : RedisState) (n : Notification) : RedisState :=
  { data := upsertKV st.data (uuidToString n.id) n
    index := zaddKV st.index n.recipient (uuidToString n.id)
      (unixSeconds n.createdAt) }

/-- Redis `NotificationRepository.FindByID`: a missing key is `(nil, nil)`,
never an error. -/
def redisNotificationFindByID (st : RedisState) (id : String) :
    Except String (Option Notification) :=
  Except.ok (lookupKV st.data id)

/-- Redis `NotificationRepository.DeleteByID`: a missing id returns success;
otherwise DEL the record and ZREM the recipient index entry. -/
def redisNotificationDeleteByID (st : RedisState) (id : String) :
    Except String RedisState :=
  match lookupKV st.data id with
  | none => Except.ok st
  | some n =>
    Except.ok
      { data := eraseKV st.data id
        index := zremKV st.index n.recipient id }

/-- Lexicographic comparison of character lists by code point, the model of
the bytewise member comparison redis uses inside a sorted set. -/
def charsLe : List Char → List Char → Bool
  | [], _ => true
  | _ :: _, [] => false
  | c :: cs, d :: ds =>
    if c.toNat < d.toNat then true
    else if c.toNat = d.toNat then charsLe cs ds
    else false

/-- Lexicographic string comparison. -/
def strLeB (a b : String) : Bool := charsLe a.toList b.toList

/-- The ZREVRANGE element order: score descending, ties by member string
descending (ZRANGE orders ties lexicographically ascending and ZREVRANGE
reverses). -/
def zrevGeB (a b : String × Int) : Bool :=
  if b.2 < a.2 then true
  else if a.2 = b.2 then strLeB b.1 a.1
  else false

/-- Inclusive slice `[s, e]` once the bounds are normalized. -/
def sliceCore {α : Type} (l : List α) (s e : Int) : List α :=
  if s > e then [] else (l.drop s.toNat).take (e - s + 1).toNat

/-- The redis inclusive index range `[start, stop]`: negative indices count
from the end, `stop` is clamped to the last element, an empty range when
`start` exceeds `stop`. -/
def redisSlice {α : Type} (l : List α) (start stop : Int) : List α :=
  sliceCore l
    (if start < 0 then max ((l.length : Int) + start) 0 else start)
    (min (if stop < 0 then (l.length : Int) + stop else stop)
      ((l.length : Int) - 1))

/-- ZREVRANGE over one sorted set: members in descending (score, member)
order, sliced inclusively. -/
def zrevrange (entries : List (String × Int)) (start stop : Int) :
    List String :=
  redisSlice ((sortBy zrevGeB entries).map (fun e => e.1)) start stop

/-- Redis `NotificationRepository.FindByRecipient`:
`ZRevRange(recipient:<r>, offset, offset+limit-1)`, then fetch each id,
silently skipping ids whose record is gone. -/
def redisNotificationFindByRecipient (st : RedisState) (recipient : String)
    (limit offst : Nat) : List Notification :=
  let entries := (lookupKV st.index recipient).getD []
  let ids := zrevrange entries (offst : Int) ((offst : Int) + (limit : Int) - 1)
  ids.filterMap (fun i => lookupKV st.data i)

/-- Score consistency of a redis store: every index entry whose member is
present in the data map carries that record's creation second as its score.
True of every store built by `redisNotificationSave`. -/
def RedisState.wfB (st : RedisState) : Bool :=
  st.index.all (fun p => p.2.all (fun e =>
    match lookupKV st.data e.1 with
    | some n => e.2 == unixSeconds n.createdAt
    | none => true))

/-! ### Concrete sample values used by counterexamples and witnesses -/

/-- A non-nil UUID (16 times 0x01). -/
def idA : UUID := List.replicate 16 1

/-- A non-nil UUID of all 0xff bytes; its string form is lexicographically
maximal among canonical UUID strings. -/
def idF : UUID := List.replicate 16 255

/-- A well-formed email notification bound to a template. -/
def sampleEmailNotification : Notification :=
  { id := idA
    recipient := "jane@example.com"
    ntype := "email"
    subject := "Hello"
    content := "Hi there"
    status := statusPending
    priority := "medium"
    templateID := idA
    templateType := "email"
    templateData := []
    metadata := []
    errorMessage := ""
    retryCount := 0
    createdAt := 1000
    updatedAt := 1000 }

/-- A notification with an empty recipient: `Validate` rejects it. -/
def invalidNotification : Notification :=
  { sampleEmailNotification with recipient := "" }

/-- A notification with non-empty recipient and type but no template
binding (`TemplateID = uuid.Nil`). -/
def untemplatedNotification : Notification :=
  { sampleEmailNotification with templateID := uuidNil, templateType := "" }

/-- Environment in which every collaborator call succeeds. -/
def envAllOk : SendEnv :=
  { saveResult := none, emailResult := none, smsResult := none,
    pushResult := none, updateResult := none, now := 2000 }

/-- Environment in which the email provider fails and storage succeeds. -/
def envEmailFails : SendEnv :=
  { saveResult := none, emailResult := some "smtp unreachable",
    smsResult := none, pushResult := none, updateResult := none, now := 2000 }

/-- A decoded `user.registered` event. -/
def registeredEvent : UserRegisteredEvent :=
  { userId := "u1", email := "jane@example.com", username := "jane",
    firstName := "Jane", lastName := "Doe" }

/-- Handler environment: rendering yields a concrete body and every
collaborator call succeeds. -/
def welcomeEnv : HandlerEnv :=
  { renderResult := Except.ok "<p>Welcome Jane</p>", saveResult := none,
    emailResult := none, updateResult := none, newId := idA, now := 42 }

/-- The outcome of the all-success `user.registered` run. -/
def welcomeOutcome : HandlerOutcome :=
  handleUserRegistered welcomeEnv registeredEvent

/-- A stored template at version 5. -/
def sampleTemplate : Template :=
  { id := idA
    name := "welcome.html"
    ttype := "email"
    subject := "Welcome"
    content := "Hello FirstName"
    vars := ["FirstName"]
    metadata := []
    version := 5
    isActive := true
    createdAt := 10
    updatedAt := 10 }

/-- A redis notification store holding exactly the sample notification. -/
def sampleRedisState : RedisState :=
  redisNotificationSave ⟨[], []⟩ sampleEmailNotification

/-- A notification for recipient "r" created 0.1 s after the epoch, with
the lexicographically largest id. -/
def notifOld : Notification :=
  { sampleEmailNotification with
    id := idF
    recipient := "r"
    createdAt := 100000000
    updatedAt := 100000000 }

/-- A notification for recipient "r" created 0.9 s after the epoch — later
than `notifOld` but within the same whole second. -/
def notifNew : Notification :=
  { sampleEmailNotification with
    recipient := "r"
    createdAt := 900000000
    updatedAt := 900000000 }

/-- The redis store after saving `notifNew` then `notifOld`. -/
def c8State : RedisState :=
  redisNotificationSave (redisNotificationSave ⟨[], []⟩ notifNew) notifOld

/-! ### Helper lemmas about association lists -/

/-- Looking up the key just upserted yields the new value. -/
theorem lookupKV_upsertKV_self {α : Type} (l : List (String × α)) (k : String)
    (v : α) : lookupKV (upsertKV l k v) k = some v := by
  induction l with
  | nil => simp [upsertKV, lookupKV, List.find?]
  | cons p rest ih =>
    by_cases h : p.1 == k
    · simp [upsertKV, lookupKV, List.find?, h]
    · simp only [upsertKV, h, Bool.false_eq_true, if_false]
      simpa [lookupKV, List.find?, h] using ih

/-- A successful lookup exhibits a matching pair in the list. -/
theorem lookupKV_eq_some_imp {α : Type} (l : List (String × α)) (k : String)
    (v : α) (h : lookupKV l k = some v) : ∃ p ∈ l, p.1 = k ∧ p.2 = v := by
  unfold lookupKV at h
  cases hf : l.find? (fun p => p.1 == k) with
  | none => rw [hf] at h; cases h
  | some p =>
    rw [hf] at h
    cases h
    refine ⟨p, List.mem_of_find?_eq_some hf, ?_, rfl⟩
    have := List.find?_some hf
    simpa using this

/-! ### Claim C3: what `Validate` accepts -/

/-- C3, counterexample: the claim says a notification without a template
binding but with non-empty recipient and type passes validation; in the
code `Validate` rejects any notification whose `TemplateID` is `uuid.Nil`,
so this concrete untemplated notification fails validation. -/
theorem validate_untemplated_counterexample :
    untemplatedNotification.recipient = "jane@example.com" ∧
    untemplatedNotification.ntype = "email" ∧
    untemplatedNotification.templateID = uuidNil ∧
    untemplatedNotification.validate = some "template ID is required" := by
  decide

/-- C3, amended: `Validate` succeeds iff recipient, type and template type
are non-empty and the template id is non-nil — a template binding is always
required, so an untemplated notification never passes. -/
theorem validate_iff (n : Notification) :
    n.validate = none ↔
      (n.recipient ≠ "" ∧ n.ntype ≠ "" ∧ n.templateID ≠ uuidNil ∧
        n.templateType ≠ "") := by
  unfold Notification.validate
  split_ifs <;> simp_all

/-! ### Claim C10: frame conditions of the two entity mutations -/

/-- C10: `UpdateStatus` changes exactly status, error message and
`updatedAt`; `IncrementRetryCount` changes exactly the retry count and
`updatedAt`; every other field of the notification is untouched by both. -/
theorem mutation_frame (n : Notification) (st msg : String) (now : Int) :
    ((n.updateStatus st msg now).status = st ∧
      (n.updateStatus st msg now).errorMessage = msg ∧
      (n.updateStatus st msg now).updatedAt = now ∧
      (n.updateStatus st msg now).id = n.id ∧
      (n.updateStatus st msg now).recipient = n.recipient ∧
      (n.updateStatus st msg now).ntype = n.ntype ∧
      (n.updateStatus st msg now).subject = n.subject ∧
      (n.updateStatus st msg now).content = n.content ∧
      (n.updateStatus st msg now).priority = n.priority ∧
      (n.updateStatus st msg now).templateID = n.templateID ∧
      (n.updateStatus st msg now).templateType = n.templateType ∧
      (n.updateStatus st msg now).templateData = n.templateData ∧
      (n.updateStatus st msg now).metadata = n.metadata ∧
      (n.updateStatus st msg now).retryCount = n.retryCount ∧
      (n.updateStatus st msg now).createdAt = n.createdAt) ∧
    ((n.incrementRetryCount now).retryCount = n.retryCount + 1 ∧
      (n.incrementRetryCount now).updatedAt = now ∧
      (n.incrementRetryCount now).id = n.id ∧
      (n.incrementRetryCount now).recipient = n.recipient ∧
      (n.incrementRetryCount now).ntype = n.ntype ∧
      (n.incrementRetryCount now).subject = n.subject ∧
      (n.incrementRetryCount now).content = n.content ∧
      (n.incrementRetryCount now).status = n.status ∧
      (n.incrementRetryCount now).priority = n.priority ∧
      (n.incrementRetryCount now).templateID = n.templateID ∧
      (n.incrementRetryCount now).templateType = n.templateType ∧
      (n.incrementRetryCount now).templateData = n.templateData ∧
      (n.incrementRetryCount now).metadata = n.metadata ∧
      (n.incrementRetryCount now).errorMessage = n.errorMessage ∧
      (n.incrementRetryCount now).createdAt = n.createdAt) := by
  and_intros <;> rfl

/-! ### Claim C1: `SendNotification` does not validate -/

/-- C1, counterexample: the claim says every notification passed to
`SendNotification` is validated before persistence or delivery, an invalid
one yielding a validation error with nothing saved or dispatched; in the
code a notification with an empty recipient (rejected by `Validate`) is
nevertheless saved, dispatched to its provider, and the call succeeds. -/
theorem sendNotification_skips_validation_counterexample :
    invalidNotification.validate = some "recipient is required" ∧
    (sendNotification envAllOk invalidNotification).saveCalled = true ∧
    (sendNotification envAllOk invalidNotification).providerCalled = true ∧
    (sendNotification envAllOk invalidNotification).result = none := by
  decide

/-- C1, amended: `SendNotification` never calls `Validate` — even for a
notification that fails validation it invokes `repo.Save`, and whenever the
save succeeds and the type selects a provider it dispatches to that
provider; no validation error is produced. -/
theorem sendNotification_never_validates (env : SendEnv) (n : Notification)
    (msg : String) (hv : n.validate = some msg) :
    (sendNotification env n).saveCalled = true ∧
    (env.saveResult = none → supportedType n.ntype = true →
      (sendNotification env n).providerCalled = true) := by
  constructor
  · cases hs : env.saveResult <;> cases hd : dispatch env n <;>
      simp [sendNotification, hs, hd]
  · intro hs hsupp
    cases hd : dispatch env n <;> simp [sendNotification, hs, hd, hsupp]

/-- Closed instance of `sendNotification_never_validates` at the concrete
invalid notification and the all-success environment. -/
theorem sendNotification_never_validates_witness :
    (sendNotification envAllOk invalidNotification).saveCalled = true ∧
    (envAllOk.saveResult = none →
      supportedType invalidNotification.ntype = true →
      (sendNotification envAllOk invalidNotification).providerCalled = true) :=
  sendNotification_never_validates envAllOk invalidNotification
    "recipient is required" (by decide)

/-! ### Claim C6: the call result tracks the delivery outcome only -/

/-- The returned result of `SendNotification` does not depend on the
outcome of the final best-effort `repo.Update`. -/
theorem sendNotification_result_ignores_update (sv em sm ps up : Option String)
    (tnow : Int) (n : Notification) :
    (sendNotification ⟨sv, em, sm, ps, up, tnow⟩ n).result =
      (sendNotification ⟨sv, em, sm, ps, none, tnow⟩ n).result := by
  cases sv with
  | some e => simp [sendNotification]
  | none =>
    have hd2 : dispatch ⟨none, em, sm, ps, none, tnow⟩ n =
        dispatch ⟨none, em, sm, ps, up, tnow⟩ n := rfl
    cases hd : dispatch (⟨none, em, sm, ps, up, tnow⟩ : SendEnv) n <;>
      simp [sendNotification, hd2, hd]

/-- C6: `SendNotification` returns success iff the initial save succeeded
and the provider delivery succeeded; a storage failure during the final
post-dispatch update never changes the returned result (it is logged and
suppressed), while a delivery failure is always returned as an error. -/
theorem sendNotification_result_iff_delivery (env : SendEnv)
    (n : Notification) :
    ((sendNotification env n).result = none ↔
      (env.saveResult = none ∧ dispatch env n = none)) ∧
    (sendNotification env n).result =
      (sendNotification { env with updateResult := none } n).result := by
  constructor
  · cases hs : env.saveResult <;> cases hd : dispatch env n <;>
      simp [sendNotification, hs, hd]
  · obtain ⟨sv, em, sm, ps, up, tnow⟩ := env
    exact sendNotification_result_ignores_update sv em sm ps up tnow n

/-! ### Claim C7: the stored record after dispatch -/

/-- C7: when storage succeeds, a failed delivery leaves the stored record
with status failed and the provider's failure reason as its error message
and the call returns an error, while a successful delivery leaves the
stored record with status sent and an empty error message and the call
succeeds. -/
theorem sendNotification_stored_status (env : SendEnv) (n : Notification)
    (reason : String) (hsave : env.saveResult = none)
    (hupd : env.updateResult = none) :
    (dispatch env n = some reason →
      ∃ m, (sendNotification env n).stored = some m ∧
        m.status = statusFailed ∧ m.errorMessage = reason ∧
        (sendNotification env n).result.isSome = true) ∧
    (dispatch env n = none →
      ∃ m, (sendNotification env n).stored = some m ∧
        m.status = statusSent ∧ m.errorMessage = "" ∧
        (sendNotification env n).result = none) := by
  constructor <;> intro hd <;>
    simp [sendNotification, hsave, hd, hupd, Notification.updateStatus]

/-- Closed instance of `sendNotification_stored_status` at a concrete
notification and an environment whose email provider fails. -/
theorem sendNotification_stored_status_witness :
    (dispatch envEmailFails sampleEmailNotification =
        some "smtp unreachable" →
      ∃ m, (sendNotification envEmailFails sampleEmailNotification).stored =
          some m ∧
        m.status = statusFailed ∧ m.errorMessage = "smtp unreachable" ∧
        (sendNotification envEmailFails
          sampleEmailNotification).result.isSome = true) ∧
    (dispatch envEmailFails sampleEmailNotification = none →
      ∃ m, (sendNotification envEmailFails sampleEmailNotification).stored =
          some m ∧
        m.status = statusSent ∧ m.errorMessage = "" ∧
        (sendNotification envEmailFails
          sampleEmailNotification).result = none) :=
  sendNotification_stored_status envEmailFails sampleEmailNotification
    "smtp unreachable" rfl rfl

/-! ### Claim C2: what `handleUserRegistered` actually persists -/

/-- C2: the claim says a valid `user.registered` event persists exactly one
email notification whose metadata maps "eventType" to "user.registered" and
whose content equals the rendered body; in the code the handler passes that
data as the `templateData` argument of `NewNotification`, which leaves
`Metadata` nil and `Content` empty, so the persisted record has an empty
content field and no metadata, the rendered body sitting in
`templateData["content"]` instead (and the email is sent with the empty
subject and content). The final status is sent when the provider
succeeds. -/
theorem handleUserRegistered_divergence :
    welcomeOutcome.result = none ∧
    welcomeOutcome.saveCount = 1 ∧
    welcomeOutcome.stored.map Notification.ntype = some "email" ∧
    welcomeOutcome.stored.map Notification.recipient =
      some "jane@example.com" ∧
    welcomeOutcome.stored.map Notification.status = some statusSent ∧
    welcomeOutcome.stored.map Notification.content = some "" ∧
    welcomeOutcome.stored.map Notification.subject = some "" ∧
    (welcomeOutcome.stored.map fun m => lookupKV m.metadata "eventType") =
      some none ∧
    (welcomeOutcome.stored.map fun m =>
      lookupKV m.templateData "eventType") = some (some "user.registered") ∧
    (welcomeOutcome.stored.map fun m =>
      lookupKV m.templateData "content") = some (some "<p>Welcome Jane</p>") := by
  decide

/-! ### Claim C4: what template update does to version and updatedAt -/

/-- C4, counterexample: the claim says update on either backend increments
the version; the relational backend's UPDATE statement writes the
caller-supplied version unchanged, so updating a version-5 template leaves
the stored version at 5, not 6. -/
theorem pgTemplateUpdate_no_increment_counterexample :
    sampleTemplate.version = 5 ∧
    pgTemplateUpdate [sampleTemplate] sampleTemplate 99 =
      Except.ok [{ sampleTemplate with updatedAt := 99 }] ∧
    (pgTemplateUpdate [sampleTemplate] sampleTemplate 99).map
      (fun l => l.map Template.version) = Except.ok [5] := by
  decide

/-- C4, amended: the cache-oriented backend's update increments the version
by one and refreshes `updatedAt` transparently, storing the bumped record;
the relational backend's update refreshes `updatedAt` but persists the
caller-supplied version unchanged (no automatic increment). -/
theorem templateUpdate_version_behavior (rst : RedisTemplateStore)
    (pst : PgTemplateStore) (t : Template) (now : Int) :
    ((redisTemplateUpdate rst t now).2.version = t.version + 1 ∧
      (redisTemplateUpdate rst t now).2.updatedAt = now ∧
      lookupKV (redisTemplateUpdate rst t now).1.data (uuidToString t.id) =
        some (redisTemplateUpdate rst t now).2) ∧
    (∀ pst2, pgTemplateUpdate pst t now = Except.ok pst2 →
      ∀ u ∈ pst2, u.id = t.id → u.version = t.version ∧ u.updatedAt = now) := by
  constructor
  · refine ⟨rfl, rfl, ?_⟩
    exact lookupKV_upsertKV_self rst.data (uuidToString t.id) _
  · intro pst2 hok u hu hid
    unfold pgTemplateUpdate at hok
    by_cases hany : pst.any (fun old => old.id == t.id)
    · rw [if_pos hany] at hok
      cases hok
      rw [List.mem_map] at hu
      obtain ⟨old, _, rfl⟩ := hu
      by_cases h : old.id == t.id
      · simp [h]
      · simp only [h, Bool.false_eq_true, if_false] at hid
        exact absurd hid (by simpa using h)
    · rw [if_neg hany] at hok
      cases hok

/-- Closed instance of `templateUpdate_version_behavior` at the sample
template, an empty cache store, and a one-row relational store. -/
theorem templateUpdate_version_behavior_witness :
    ((redisTemplateUpdate ⟨[], []⟩ sampleTemplate 99).2.version =
        sampleTemplate.version + 1 ∧
      (redisTemplateUpdate ⟨[], []⟩ sampleTemplate 99).2.updatedAt = 99 ∧
      lookupKV (redisTemplateUpdate ⟨[], []⟩ sampleTemplate 99).1.data
          (uuidToString sampleTemplate.id) =
        some (redisTemplateUpdate ⟨[], []⟩ sampleTemplate 99).2) ∧
    (∀ u ∈ [{ sampleTemplate with updatedAt := 99 }],
      u.id = sampleTemplate.id →
      u.version = sampleTemplate.version ∧ u.updatedAt = 99) :=
  ⟨(templateUpdate_version_behavior ⟨[], []⟩ [sampleTemplate]
      sampleTemplate 99).1,
   (templateUpdate_version_behavior ⟨[], []⟩ [sampleTemplate]
      sampleTemplate 99).2
     [{ sampleTemplate with updatedAt := 99 }] (by decide)⟩

/-! ### Claim C5: deleting a missing id -/

/-- C5, counterexample: the claim says delete of a never-saved id returns
no error on both backends; on the relational backend both the notification
and the template delete report zero affected rows as a not-found error. -/
theorem pgDelete_missing_counterexample :
    pgNotificationDelete [] idA =
      Except.error ("notification not found: " ++ uuidToString idA) ∧
    pgTemplateDelete [] idA =
      Except.error ("template not found: " ++ uuidToString idA) := by
  decide

/-- C5, amended: only the cache-oriented backend's deletes are idempotent —
a missing id returns success and leaves the store unchanged for both the
notification and the template store — while the relational backend's
deletes return a not-found error for a missing id. -/
theorem delete_missing_id_behavior (rst : RedisState)
    (tst : RedisTemplateStore) (pnst : PgNotificationStore)
    (ptst : PgTemplateStore) (nid : String) (tid uidN uidT : UUID)
    (h1 : lookupKV rst.data nid = none)
    (h2 : lookupKV tst.data (uuidToString tid) = none)
    (h3 : ∀ n ∈ pnst, n.id ≠ uidN)
    (h4 : ∀ t ∈ ptst, t.id ≠ uidT) :
    redisNotificationDeleteByID rst nid = Except.ok rst ∧
    redisTemplateDelete tst tid = Except.ok tst ∧
    pgNotificationDelete pnst uidN =
      Except.error ("notification not found: " ++ uuidToString uidN) ∧
    pgTemplateDelete ptst uidT =
      Except.error ("template not found: " ++ uuidToString uidT) := by
  refine ⟨?_, ?_, ?_, ?_⟩
  · unfold redisNotificationDeleteByID
    rw [h1]
  · unfold redisTemplateDelete
    rw [h2]
  · have hany : pnst.any (fun n => n.id == uidN) = false := by
      rw [List.any_eq_false]
      intro n hn
      simpa using h3 n hn
    unfold pgNotificationDelete
    rw [hany]
    simp
  · have hany : ptst.any (fun t => t.id == uidT) = false := by
      rw [List.any_eq_false]
      intro t ht
      simpa using h4 t ht
    unfold pgTemplateDelete
    rw [hany]
    simp

/-- Closed instance of `delete_missing_id_behavior` on empty stores. -/
theorem delete_missing_id_behavior_witness :
    redisNotificationDeleteByID ⟨[], []⟩ "missing" = Except.ok ⟨[], []⟩ ∧
    redisTemplateDelete ⟨[], []⟩ idA = Except.ok ⟨[], []⟩ ∧
    pgNotificationDelete [] idA =
      Except.error ("notification not found: " ++ uuidToString idA) ∧
    pgTemplateDelete [] idA =
      Except.error ("template not found: " ++ uuidToString idA) :=
  delete_missing_id_behavior ⟨[], []⟩ ⟨[], []⟩ [] [] "missing" idA idA idA
    (by decide) (by decide) (by simp) (by simp)

/-! ### Claim C9: findById on a malformed id string -/

/-- C9: for an id string that is not a syntactically valid UUID, the
relational backend's findById fails with a format error while the
cache-oriented backend returns a not-found `(nil, nil)` (given that its
keys are canonical UUID strings, as every saved record's key is), so the
two backends are observably different on such inputs. -/
theorem findByID_backend_divergence (pst : PgNotificationStore)
    (rst : RedisState) (id : String) (hbad : uuidParse id = none)
    (hkeys : rst.data.all (fun p => (uuidParse p.1).isSome) = true) :
    pgNotificationFindByID pst id =
      Except.error ("invalid notification ID format: " ++ id) ∧
    redisNotificationFindByID rst id = Except.ok none := by
  constructor
  · unfold pgNotificationFindByID
    rw [hbad]
  · unfold redisNotificationFindByID
    cases hlk : lookupKV rst.data id with
    | none => rfl
    | some n =>
      obtain ⟨p, hp, hpk, _⟩ := lookupKV_eq_some_imp rst.data id n hlk
      rw [List.all_eq_true] at hkeys
      have := hkeys p hp
      rw [hpk, hbad] at this
      cases this

/-- Closed instance of `findByID_backend_divergence` at the string
"not-a-uuid" over one-record stores. -/
theorem findByID_backend_divergence_witness :
    pgNotificationFindByID [sampleEmailNotification] "not-a-uuid" =
      Except.error ("invalid notification ID format: " ++ "not-a-uuid") ∧
    redisNotificationFindByID sampleRedisState "not-a-uuid" =
      Except.ok none :=
  findByID_backend_divergence [sampleEmailNotification] sampleRedisState
    "not-a-uuid" (by decide) (by decide)

/-! ### Helper lemmas about the sort and slice used by findByRecipient -/

/-- Membership is preserved by ordered insertion. -/
theorem mem_insertBy {α : Type} (le : α → α → Bool) (a x : α) (l : List α) :
    x ∈ insertBy le a l ↔ x = a ∨ x ∈ l := by
  induction l with
  | nil => simp [insertBy]
  | cons b t ih =>
    by_cases h : le a b
    · simp [insertBy, h]
    · simp [insertBy, h, ih]
      tauto

/-- Ordered insertion permutes the cons. -/
theorem perm_insertBy {α : Type} (le : α → α → Bool) (a : α) (l : List α) :
    (insertBy le a l).Perm (a :: l) := by
  induction l with
  | nil => simp [insertBy]
  | cons b t ih =>
    by_cases h : le a b
    · simp [insertBy, h]
    · simp only [insertBy, h, Bool.false_eq_true, if_false]
      exact (ih.cons b).trans (List.Perm.swap a b t)

/-- The sort permutes its input. -/
theorem perm_sortBy {α : Type} (le : α → α → Bool) (l : List α) :
    (sortBy le l).Perm l := by
  induction l with
  | nil => simp [sortBy]
  | cons a t ih => exact (perm_insertBy le a (sortBy le t)).trans (ih.cons a)

/-- Ordered insertion into a sorted list stays sorted, for a total and
transitive boolean relation. -/
theorem pairwise_insertBy {α : Type} (le : α → α → Bool)
    (htot : ∀ a b, le a b = true ∨ le b a = true)
    (htr : ∀ a b c, le a b = true → le b c = true → le a c = true)
    (a : α) (l : List α) (h : l.Pairwise (fun x y => le x y = true)) :
    (insertBy le a l).Pairwise (fun x y => le x y = true) := by
  induction l with
  | nil => simp [insertBy]
  | cons b t ih =>
    rcases h with _ | ⟨hb, ht⟩
    by_cases hab : le a b
    · rw [insertBy, if_pos hab]
      refine List.Pairwise.cons ?_ (List.Pairwise.cons hb ht)
      intro y hy
      rcases List.mem_cons.mp hy with rfl | hy
      · exact hab
      · exact htr a b y hab (hb y hy)
    · rw [insertBy, if_neg hab]
      refine List.Pairwise.cons ?_ (ih ht)
      intro y hy
      rcases (mem_insertBy le a y t).mp hy with hya | hy
      · rw [hya]
        exact (htot a b).resolve_left hab
      · exact hb y hy

/-- The sort output is sorted, for a total and transitive relation. -/
theorem pairwise_sortBy {α : Type} (le : α → α → Bool)
    (htot : ∀ a b, le a b = true ∨ le b a = true)
    (htr : ∀ a b c, le a b = true → le b c = true → le a c = true)
    (l : List α) :
    (sortBy le l).Pairwise (fun x y => le x y = true) := by
  induction l with
  | nil => simp [sortBy]
  | cons a t ih => exact pairwise_insertBy le htot htr a _ ih

/-- A normalized slice is a sublist of the underlying list. -/
theorem sliceCore_sublist {α : Type} (l : List α) (s e : Int) :
    (sliceCore l s e).Sublist l := by
  unfold sliceCore
  split
  · exact List.nil_sublist l
  · exact (List.take_sublist _ _).trans (List.drop_sublist _ _)

/-- A redis range is a sublist of the underlying list. -/
theorem redisSlice_sublist {α : Type} (l : List α) (s e : Int) :
    (redisSlice l s e).Sublist l :=
  sliceCore_sublist l _ _

/-- A redis range of an empty list is empty. -/
theorem redisSlice_nil {α : Type} (s e : Int) :
    redisSlice ([] : List α) s e = [] := by
  unfold redisSlice sliceCore
  split <;> simp

/-- Normalized slices commute with mapping. -/
theorem sliceCore_map {α β : Type} (f : α → β) (l : List α) (s e : Int) :
    sliceCore (l.map f) s e = (sliceCore l s e).map f := by
  unfold sliceCore
  split
  · simp
  · rw [← List.map_drop, ← List.map_take]

/-- Redis ranges commute with mapping. -/
theorem redisSlice_map {α β : Type} (f : α → β) (l : List α) (s e : Int) :
    redisSlice (l.map f) s e = (redisSlice l s e).map f := by
  unfold redisSlice
  rw [List.length_map, sliceCore_map]

/-- A normalized slice holds at most `e - s + 1` elements. -/
theorem sliceCore_length_le {α : Type} (l : List α) (s e : Int) :
    (sliceCore l s e).length ≤ (e - s + 1).toNat := by
  unfold sliceCore
  split
  · simp
  · rw [List.length_take]
    omega

/-- The range `[offset, offset+limit-1]` holds at most `limit` elements
when `limit` is at least one. -/
theorem redisSlice_length_le {α : Type} (l : List α) (offst limit : Nat)
    (h : 1 ≤ limit) :
    (redisSlice l (offst : Int) ((offst : Int) + (limit : Int) - 1)).length ≤
      limit := by
  unfold redisSlice
  have h0 : ¬ ((offst : Int) < 0) := by omega
  have h1 : ¬ ((offst : Int) + (limit : Int) - 1 < 0) := by omega
  rw [if_neg h0, if_neg h1]
  refine le_trans (sliceCore_length_le l _ _) ?_
  omega

/-- Pairwise transfer through `filterMap`: a pairwise relation on the input
induces one on the mapped survivors. -/
theorem pairwise_filterMap_of_pairwise {α β : Type} (f : α → Option β)
    (R : α → α → Prop) (S : β → β → Prop) (l : List α)
    (hR : l.Pairwise R)
    (h : ∀ a ∈ l, ∀ b ∈ l, R a b →
      ∀ x, f a = some x → ∀ y, f b = some y → S x y) :
    (l.filterMap f).Pairwise S := by
  induction l with
  | nil => simp
  | cons a t ih =>
    rcases hR with _ | ⟨ha, ht⟩
    have hrec := ih ht (fun p hp q hq hpq x hx y hy =>
      h p (List.mem_cons_of_mem a hp) q (List.mem_cons_of_mem a hq) hpq
        x hx y hy)
    cases hfa : f a with
    | none => simpa [List.filterMap_cons, hfa] using hrec
    | some x =>
      rw [List.filterMap_cons, hfa]
      refine List.Pairwise.cons ?_ hrec
      intro y hy
      obtain ⟨b, hb, hfb⟩ := List.mem_filterMap.mp hy
      exact h a (List.mem_cons_self a t) b (List.mem_cons_of_mem a hb)
        (ha b hb) x hfa y hfb

/-- The character-list comparison is total. -/
theorem charsLe_total : ∀ xs ys : List Char,
    charsLe xs ys = true ∨ charsLe ys xs = true := by
  intro xs
  induction xs with
  | nil => intro ys; left; rfl
  | cons c cs ih =>
    intro ys
    cases ys with
    | nil => right; rfl
    | cons d ds =>
      rcases lt_trichotomy c.toNat d.toNat with h | h | h
      · left; simp [charsLe, h]
      · rcases ih ds with hcd | hdc
        · left; simp [charsLe, h, hcd]
        · right; simp [charsLe, h.symm, hdc]
      · right; simp [charsLe, h]

/-- The character-list comparison is transitive. -/
theorem charsLe_trans : ∀ xs ys zs : List Char,
    charsLe xs ys = true → charsLe ys zs = true → charsLe xs zs = true := by
  intro xs
  induction xs with
  | nil => intro ys zs _ _; rfl
  | cons c cs ih =>
    intro ys zs h1 h2
    cases ys with
    | nil => simp [charsLe] at h1
    | cons d ds =>
      cases zs with
      | nil => simp [charsLe] at h2
      | cons e es =>
        simp only [charsLe] at h1 h2 ⊢
        by_cases hcd : c.toNat < d.toNat
        · by_cases hde : d.toNat < e.toNat
          · rw [if_pos (by omega)]
          · by_cases hde2 : d.toNat = e.toNat
            · rw [if_pos (by omega)]
            · rw [if_neg hde, if_neg hde2] at h2
              exact absurd h2 (by simp)
        · by_cases hcd2 : c.toNat = d.toNat
          · rw [if_neg hcd, if_pos hcd2] at h1
            by_cases hde : d.toNat < e.toNat
            · rw [if_pos (by omega)]
            · by_cases hde2 : d.toNat = e.toNat
              · rw [if_neg (by omega), if_pos (by omega)]
                rw [if_neg hde, if_pos hde2] at h2
                exact ih ds es h1 h2
              · rw [if_neg hde, if_neg hde2] at h2
                exact absurd h2 (by simp)
          · rw [if_neg hcd, if_neg hcd2] at h1
            exact absurd h1 (by simp)

/-- The string comparison is total. -/
theorem strLeB_total (a b : String) :
    strLeB a b = true ∨ strLeB b a = true :=
  charsLe_total a.toList b.toList

/-- The string comparison is transitive. -/
theorem strLeB_trans (a b c : String) (h1 : strLeB a b = true)
    (h2 : strLeB b c = true) : strLeB a c = true :=
  charsLe_trans a.toList b.toList c.toList h1 h2

/-- Semantic reading of the ZREVRANGE order. -/
theorem zrevGeB_iff (a b : String × Int) :
    zrevGeB a b = true ↔
      (b.2 < a.2 ∨ (a.2 = b.2 ∧ strLeB b.1 a.1 = true)) := by
  unfold zrevGeB
  split_ifs with h1 h2 <;> simp_all

/-- The ZREVRANGE order is total. -/
theorem zrevGeB_total (a b : String × Int) :
    zrevGeB a b = true ∨ zrevGeB b a = true := by
  rw [zrevGeB_iff, zrevGeB_iff]
  rcases lt_trichotomy a.2 b.2 with h | h | h
  · right; left; exact h
  · rcases strLeB_total a.1 b.1 with hs | hs
    · right; right; exact ⟨h.symm, hs⟩
    · left; right; exact ⟨h, hs⟩
  · left; left; exact h

/-- The ZREVRANGE order is transitive. -/
theorem zrevGeB_trans (a b c : String × Int) (h1 : zrevGeB a b = true)
    (h2 : zrevGeB b c = true) : zrevGeB a c = true := by
  rw [zrevGeB_iff] at h1 h2 ⊢
  rcases h1 with h1 | ⟨h1, h1s⟩ <;> rcases h2 with h2 | ⟨h2, h2s⟩
  · left; omega
  · left; omega
  · left; omega
  · right; exact ⟨h1.trans h2, strLeB_trans c.1 b.1 a.1 h2s h1s⟩

/-- The descending creation order used by the relational query is total. -/
theorem createdDescB_total (a b : Notification) :
    createdDescB a b = true ∨ createdDescB b a = true := by
  unfold createdDescB
  rcases le_total a.createdAt b.createdAt with h | h <;> simp [h]

/-- The descending creation order is transitive. -/
theorem createdDescB_trans (a b c : Notification)
    (h1 : createdDescB a b = true) (h2 : createdDescB b c = true) :
    createdDescB a c = true := by
  unfold createdDescB at h1 h2 ⊢
  simp only [decide_eq_true_eq] at h1 h2 ⊢
  omega

/-! ### Claim C8: findByRecipient ordering, bounds and emptiness -/

/-- C8, counterexample: the claim says both backends return results
strictly descending by `createdAt` whenever creation times are distinct; the
cache-oriented backend scores its recipient index by `CreatedAt.Unix()`
(whole seconds), so two records created 0.1 s and 0.9 s after the epoch tie
on score and come back in member-string order — here the older record
first, ascending in `createdAt`. -/
theorem redisFindByRecipient_order_counterexample :
    notifOld.createdAt < notifNew.createdAt ∧
    (redisNotificationFindByRecipient c8State "r" 2 0).map
      Notification.createdAt = [notifOld.createdAt, notifNew.createdAt] := by
  decide

/-- C8, amended: the relational backend returns only the recipient's
records, at most `limit` of them, non-strictly descending by `createdAt`
and strictly descending when the matching records' creation times are
pairwise distinct, and an empty list when none match. The cache-oriented
backend returns records non-strictly descending by creation time truncated
to whole seconds (same-second records may come back out of `createdAt`
order), at most `limit` of them when `limit` is at least one, and an empty
list for an unindexed recipient. -/
theorem findByRecipient_order_and_bounds (pst : PgNotificationStore)
    (st : RedisState) (r : String) (limit offst : Nat) :
    (∀ x ∈ pgNotificationFindByRecipient pst r limit offst,
      x.recipient = r) ∧
    (pgNotificationFindByRecipient pst r limit offst).length ≤ limit ∧
    (pgNotificationFindByRecipient pst r limit offst).Pairwise
      (fun a b => b.createdAt ≤ a.createdAt) ∧
    ((pst.filter (fun n => n.recipient == r)).Pairwise
        (fun a b => a.createdAt ≠ b.createdAt) →
      (pgNotificationFindByRecipient pst r limit offst).Pairwise
        (fun a b => b.createdAt < a.createdAt)) ∧
    (pst.filter (fun n => n.recipient == r) = [] →
      pgNotificationFindByRecipient pst r limit offst = []) ∧
    (st.wfB = true →
      (redisNotificationFindByRecipient st r limit offst).Pairwise
        (fun a b => unixSeconds b.createdAt ≤ unixSeconds a.createdAt)) ∧
    (1 ≤ limit →
      (redisNotificationFindByRecipient st r limit offst).length ≤ limit) ∧
    (lookupKV st.index r = none →
      redisNotificationFindByRecipient st r limit offst = []) := by
  have hsubPg : (pgNotificationFindByRecipient pst r limit offst).Sublist
      (sortBy createdDescB (pst.filter (fun n => n.recipient == r))) := by
    unfold pgNotificationFindByRecipient
    exact (List.take_sublist _ _).trans (List.drop_sublist _ _)
  have hpermPg :=
    perm_sortBy createdDescB (pst.filter (fun n => n.recipient == r))
  have hsortPg := pairwise_sortBy createdDescB createdDescB_total
    createdDescB_trans (pst.filter (fun n => n.recipient == r))
  have hresGe : (pgNotificationFindByRecipient pst r limit offst).Pairwise
      (fun a b => b.createdAt ≤ a.createdAt) :=
    (hsortPg.sublist hsubPg).imp
      (fun hab => by simpa [createdDescB] using hab)
  refine ⟨?_, ?_, hresGe, ?_, ?_, ?_, ?_, ?_⟩
  · intro x hx
    have hx2 : x ∈ pst.filter (fun n => n.recipient == r) :=
      hpermPg.mem_iff.mp (hsubPg.subset hx)
    have := (List.mem_filter.mp hx2).2
    simpa using this
  · unfold pgNotificationFindByRecipient
    exact List.length_take_le _ _
  · intro hne
    have hsortNe :
        (sortBy createdDescB
          (pst.filter (fun n => n.recipient == r))).Pairwise
          (fun a b => a.createdAt ≠ b.createdAt) :=
      (hpermPg.pairwise_iff (fun h => Ne.symm h)).mpr hne
    have hresNe := hsortNe.sublist hsubPg
    exact (hresGe.and hresNe).imp
      (fun h => lt_of_le_of_ne h.1 (Ne.symm h.2))
  · intro hemp
    unfold pgNotificationFindByRecipient
    rw [hemp]
    simp [sortBy]
  · intro hwf
    unfold RedisState.wfB at hwf
    simp only [redisNotificationFindByRecipient, zrevrange]
    cases hidx : lookupKV st.index r with
    | none => simp [redisSlice_nil, sortBy]
    | some entries =>
      simp only [Option.getD_some]
      rw [redisSlice_map, List.filterMap_map]
      have hperm := perm_sortBy zrevGeB entries
      have hsort := pairwise_sortBy zrevGeB zrevGeB_total zrevGeB_trans
        entries
      have hsub := redisSlice_sublist (sortBy zrevGeB entries) (offst : Int)
        ((offst : Int) + (limit : Int) - 1)
      have hsl := hsort.sublist hsub
      refine pairwise_filterMap_of_pairwise _ _ _ _ hsl ?_
      intro a ha b hb hab x hx y hy
      simp only [Function.comp] at hx hy
      have haent : a ∈ entries := hperm.mem_iff.mp (hsub.subset ha)
      have hbent : b ∈ entries := hperm.mem_iff.mp (hsub.subset hb)
      obtain ⟨p, hp, hpk, hpv⟩ := lookupKV_eq_some_imp st.index r entries hidx
      have hall := List.all_eq_true.mp hwf p hp
      have hae := List.all_eq_true.mp hall a (by rw [hpv]; exact haent)
      have hbe := List.all_eq_true.mp hall b (by rw [hpv]; exact hbent)
      rw [hx] at hae
      rw [hy] at hbe
      have hax : a.2 = unixSeconds x.createdAt := by simpa using hae
      have hby : b.2 = unixSeconds y.createdAt := by simpa using hbe
      have hba : b.2 ≤ a.2 := by
        rcases (zrevGeB_iff a b).mp hab with h | ⟨h, _⟩
        · exact le_of_lt h
        · exact le_of_eq h.symm
      rw [← hax, ← hby]
      exact hba
  · intro hlim
    simp only [redisNotificationFindByRecipient, zrevrange]
    refine le_trans (List.length_filterMap_le _ _) ?_
    rw [redisSlice_map]
    rw [List.length_map]
    exact redisSlice_length_le _ offst limit hlim
  · intro hidx
    simp [redisNotificationFindByRecipient, zrevrange, hidx, sortBy,
      redisSlice_nil]

/-- Closed instance of `findByRecipient_order_and_bounds` over the two
same-second records: the relational side is strictly ordered (their
creation times are distinct), the cache side is ordered by creation second
and within bounds. -/
theorem findByRecipient_order_and_bounds_witness :
    (∀ x ∈ pgNotificationFindByRecipient [notifOld, notifNew] "r" 2 0,
      x.recipient = "r") ∧
    (pgNotificationFindByRecipient [notifOld, notifNew] "r" 2 0).Pairwise
      (fun a b => b.createdAt < a.createdAt) ∧
    (redisNotificationFindByRecipient c8State "r" 2 0).Pairwise
      (fun a b => unixSeconds b.createdAt ≤ unixSeconds a.createdAt) ∧
    (redisNotificationFindByRecipient c8State "r" 2 0).length ≤ 2 :=
  ⟨(findByRecipient_order_and_bounds [notifOld, notifNew] c8State
      "r" 2 0).1,
   (findByRecipient_order_and_bounds [notifOld, notifNew] c8State
      "r" 2 0).2.2.2.1 (by decide),
   (findByRecipient_order_and_bounds [notifOld, notifNew] c8State
      "r" 2 0).2.2.2.2.2.1 (by decide),
   (findByRecipient_order_and_bounds [notifOld, notifNew] c8State
      "r" 2 0).2.2.2.2.2.2.1 (by decide)⟩

end NotificationService
